import Mathlib

/-!
Shallow embedding of `src/training/data.py` (dataset-loading utilities of the
cloome repository) and proofs about its claimed behaviour.

External libraries (pandas, torch, webdataset, braceexpand, PIL, the CLIP
tokenizer, the CellPainting dataset class) are not part of this repository;
their effects enter the model as explicit parameters:
  * the parsed CSV file is a list of rows,
  * the CellPainting / ImageNet dataset is represented by its length (and,
    for ImageNet, its list of class targets),
  * `np.random.shuffle` results are permutation parameters,
  * `braceexpand.braceexpand` is a function `String → List String`,
  * the parsed `sizes.json` manifest is a function `String → Nat`.
Python integer arithmetic on the non-negative quantities involved is modelled
with `Nat` (`//` is `Nat.div`, `math.ceil (a / b)` is `(a + b - 1) / b`).
-/

namespace Cloome

/-- Ceiling division on naturals: `math.ceil (a / b)` for `b > 0`. -/
def ceilDiv (a b : Nat) : Nat := (a + b - 1) / b

/-- Python truthiness of an optional string: `None` and `""` are falsy. -/
def truthy : Option String → Bool
  | none => false
  | some s => s ≠ ""

/-- Python `str.split(sep)` for a one-character separator, over the character
list: `"".split(c) = [""]`, consecutive separators produce empty components. -/
def splitOnChar (c : Char) (l : List Char) : List (List Char) :=
  l.foldr
    (fun a acc =>
      match acc with
      | [] => [[a]]
      | g :: gs => if a = c then [] :: g :: gs else (a :: g) :: gs)
    [[]]

/-- The final component of `s.split(c)` (Python `s.split(c)[-1]`). -/
def lastComponent (c : Char) (s : String) : String :=
  String.mk ((splitOnChar c s.data).getLastD [])

/-- `os.path.basename`: the part of a path after the final slash. -/
def basename (p : String) : String := lastComponent '/' p

/-- `Except.error`-ness test (an `AssertionError` / `ValueError` occurred). -/
def isErr {α : Type} : Except String α → Bool
  | .error _ => true
  | .ok _ => false

/-- The two dataset-constructor functions `get_dataset_fn` can return. -/
inductive DatasetFn : Type
  | csvFn : DatasetFn     -- get_csv_dataset
  | wdsFn : DatasetFn     -- get_wds_dataset
deriving DecidableEq, Repr

/-- `get_dataset_fn(data_path, dataset_type)` from data.py:
dispatches on `dataset_type`, and for `"auto"` on the final dot-separated
component of `data_path` (`data_path.split('.')[-1]`); raises `ValueError`
(modelled as `Except.error`) otherwise. -/
def get_dataset_fn (data_path dataset_type : String) : Except String DatasetFn :=
  if dataset_type = "webdataset" then .ok .wdsFn
  else if dataset_type = "csv" then .ok .csvFn
  else if dataset_type = "auto" then
    let ext := lastComponent '.' data_path
    if ext = "csv" ∨ ext = "tsv" then .ok .csvFn
    else if ext = "tar" then .ok .wdsFn
    else .error ("Tried to figure out dataset type, but failed for extention " ++ ext)
  else .error ("Unsupported dataset type: " ++ dataset_type)

/-- The command-line argument record consumed by data.py (only the fields the
file reads). Optional paths are `Option String` (`None` ↦ `none`). -/
structure Args where
  train_data : Option String
  val_data : Option String
  train_index : Option String
  val_index : Option String
  data_mols : Option String
  image_path : Option String
  imagenet_train : Option String
  imagenet_val : Option String
  imagenet_v2 : Option String
  batch_size : Nat
  batch_size_eval : Nat
  workers : Nat
  seed : Nat
  world_size : Nat
  distributed : Bool
  debug_run : Bool
  csv_img_key : String
  csv_caption_key : String
  path_data : String
  csv_separator : String

/-- The sampler objects data.py can place in a `DataInfo`: a
`torch DistributedSampler(dataset, seed=args.seed)` or a
`SubsetRandomSampler(indices)`. -/
inductive Sampler : Type
  | distributedS : Nat → Sampler
  | subsetRandom : List Nat → Sampler
deriving DecidableEq, Repr

/-- A torch `DataLoader` as configured by data.py: the constructor arguments
that data.py passes, plus the two attributes (`num_samples`, `num_batches`)
that data.py may or may not set on the object afterwards (`none` = the
attribute was never assigned). -/
structure Dataloader where
  dataset_len : Nat
  batch_size : Nat
  shuffle : Bool
  drop_last : Bool
  num_samples : Option Nat
  num_batches : Option Nat
deriving DecidableEq, Repr

/-- The `DataInfo` dataclass of data.py. -/
structure DataInfo where
  dataloader : Dataloader
  sampler : Option Sampler
deriving DecidableEq, Repr

/-- `len(DataLoader)` in torch: with `drop_last` it is `n // bs`, otherwise
`ceil(n / bs)`, where `n` is the per-replica number of samples. -/
def numBatchesAttr (n bs : Nat) (drop_last : Bool) : Nat :=
  if drop_last then n / bs else ceilDiv n bs

/-- Per-replica sample count seen by the torch `DataLoader`: a
`DistributedSampler` (with its default `drop_last=False`) yields
`ceil(n / world_size)` indices per replica; otherwise the full dataset. -/
def effectiveLen (n : Nat) (sampler : Option Sampler) (world_size : Nat) : Nat :=
  match sampler with
  | some (Sampler.distributedS _) => ceilDiv n world_size
  | _ => n

/-- The batch sequence a torch `DataLoader` yields from an item sequence:
consecutive chunks of `bs` items, the last one possibly partial. -/
def chunks {α : Type} (bs : Nat) : List α → List (List α)
  | [] => []
  | a :: t => ((a :: t).take bs) :: chunks bs (t.drop (bs - 1))
termination_by l => l.length
decreasing_by simp [List.length_drop]; omega

/-- The batches a torch `DataLoader` actually yields: with `drop_last` only
the full-size chunks (the trailing partial chunk is dropped). -/
def yieldedBatches {α : Type} (bs : Nat) (drop_last : Bool) (items : List α) :
    List (List α) :=
  if drop_last then chunks bs (items.take (bs * (items.length / bs))) else chunks bs items

/-- `dataloader.repeat(2).slice(num_batches)` in get_wds_dataset: keep only
the first `num_batches` batches of the (repeated) batch stream. -/
def sliceBatches {β : Type} (stream : List β) (num_batches : Nat) : List β :=
  stream.take num_batches

/-- `get_data_subset(dataset, n_samples)` from data.py (default
`n_samples=1000`): shuffle `np.arange(len(dataset))` and keep the first
`min(n_samples, len(dataset))` indices as a `Subset`. `idcsShuffled` is the
result of the in-place `np.random.shuffle` on `np.arange(datasetLen)`. -/
def get_data_subset (idcsShuffled : List Nat) (datasetLen : Nat) (n_samples : Nat) :
    List Nat :=
  idcsShuffled.take (min n_samples datasetLen)

/-- `get_dataset_size(shards)` from data.py. `expand` is
`braceexpand.braceexpand`; `sizes` is the parsed `sizes.json` manifest of the
pattern's directory, keyed by shard basename. -/
def get_dataset_size (expand : String → List String) (sizes : String → Nat)
    (shards : String) : Nat × Nat :=
  let shards_list := expand shards
  let total_size := (shards_list.map (fun shard => sizes (basename shard))).sum
  (total_size, shards_list.length)

/-- One row of the parsed CSV/TSV file: its image-column and caption-column
entries (a pandas dataframe holds one value of each column per row). -/
structure CsvRow where
  img : String
  caption : String
deriving DecidableEq, Repr

/-- The `CsvDataset` class of data.py: parallel `images` and `captions`
lists read from the dataframe's two columns. -/
structure CsvDataset where
  images : List String
  captions : List String
deriving DecidableEq, Repr

/-- `CsvDataset.__init__`: images are the img-column values joined with the
image folder (`os.path.join`), captions the caption-column values. -/
def CsvDataset.ofRows (rows : List CsvRow) (img_folder : String) : CsvDataset :=
  { images := rows.map (fun r => img_folder ++ "/" ++ r.img),
    captions := rows.map (fun r => r.caption) }

/-- `CsvDataset.__len__`: `len(self.captions)`. -/
def CsvDataset.length (d : CsvDataset) : Nat := d.captions.length

/-- `CsvDataset.__getitem__`: transform the idx-th image, tokenize the idx-th
caption, return the pair. `tf`/`tk` model `self.transforms` and `tokenize`. -/
def CsvDataset.getitem {I T : Type} (d : CsvDataset) (tf : String → I)
    (tk : String → T) (idx : Nat) : Option (I × T) :=
  match d.images.get? idx, d.captions.get? idx with
  | some img, some cap => some (tf img, tk cap)
  | _, _ => none

/-- The item sequence of a `CsvDataset` (its `__getitem__` values in order). -/
def CsvDataset.items {I T : Type} (d : CsvDataset) (tf : String → I)
    (tk : String → T) : List (I × T) :=
  (d.images.zip d.captions).map (fun p => (tf p.1, tk p.2))

/-- torch's default collate on a batch of (image, text) pairs: a pair of the
image list and the text list. -/
def collate {I T : Type} (b : List (I × T)) : List I × List T :=
  (b.map Prod.fst, b.map Prod.snd)

/-- One loop iteration of `count_samples`: add `len(images)` to the element
count and 1 to the batch count, failing (`none`, the `AssertionError`) unless
`len(images) == len(texts)`. -/
def countStep {I T : Type} (acc : Option (Nat × Nat)) (b : List I × List T) :
    Option (Nat × Nat) :=
  match acc with
  | none => none
  | some p =>
    if b.1.length = b.2.length then some (p.1 + b.1.length, p.2 + 1) else none

/-- `count_samples(dataloader)` from data.py: walk the batches, counting
batches and summing `len(images)`, asserting `len(images) == len(texts)` on
each batch; `none` models the `AssertionError`. -/
def count_samples {I T : Type} (batches : List (List I × List T)) : Option (Nat × Nat) :=
  batches.foldl countStep (some (0, 0))

/-- `get_cellpainting_dataset(args, preprocess_fn, is_train)` from data.py.
`cpLen` is the length of the external `CellPainting` dataset built from the
index/image/molecule files; `perm` is the shuffled index array used by
`get_data_subset` when `args.debug_run`. -/
def get_cellpainting_dataset (args : Args) (is_train : Bool) (cpLen : Nat)
    (perm : List Nat) : Except String DataInfo :=
  if truthy args.data_mols = false then .error "AssertionError: input_filename_mols"
  else if truthy args.image_path = false then .error "AssertionError: input_filename_imgs"
  else
    let n := if args.debug_run then (get_data_subset perm cpLen 1000).length else cpLen
    let sampler : Option Sampler :=
      if args.distributed && is_train then some (.distributedS args.seed) else none
    let shuffle := is_train && sampler.isNone
    let batch_size := if is_train then args.batch_size else args.batch_size_eval
    .ok ⟨{ dataset_len := n, batch_size := batch_size, shuffle := shuffle,
           drop_last := is_train, num_samples := some n,
           num_batches := some (numBatchesAttr (effectiveLen n sampler args.world_size)
             batch_size is_train) }, sampler⟩

/-- `get_csv_dataset(args, preprocess_fn, is_train, run_mode)` from data.py.
`rows` is the parsed CSV file; `perm` the debug-subsample shuffle result. -/
def get_csv_dataset (args : Args) (is_train : Bool) (rows : List CsvRow)
    (perm : List Nat) : Except String DataInfo :=
  if truthy (if is_train then args.train_data else args.val_data) = false then
    .error "AssertionError: input_filename"
  else
    let ds := CsvDataset.ofRows rows args.path_data
    let n0 := CsvDataset.length ds
    let n := if args.debug_run then (get_data_subset perm n0 1000).length else n0
    let sampler : Option Sampler :=
      if args.distributed && is_train then some (.distributedS args.seed) else none
    let shuffle := sampler.isNone
    let batch_size := if is_train then args.batch_size else args.batch_size_eval
    .ok ⟨{ dataset_len := n, batch_size := batch_size, shuffle := shuffle,
           drop_last := is_train, num_samples := some n,
           num_batches := some (numBatchesAttr (effectiveLen n sampler args.world_size)
             batch_size is_train) }, sampler⟩

/-- `get_wds_dataset(args, preprocess_img, is_train, run_mode)` from data.py.
The webdataset pipeline itself is external; the model keeps the sample/batch
arithmetic, the `WebLoader(..., shuffle=False, ...)` configuration and the
always-`None` sampler. `//` is `Nat.div`, `math.ceil(a/b)` is `ceilDiv`. -/
def get_wds_dataset (args : Args) (is_train : Bool) (expand : String → List String)
    (sizes : String → Nat) : Except String DataInfo :=
  match (if is_train then args.train_data else args.val_data) with
  | none => .error "AssertionError: input_shards is None"
  | some input_shards =>
    let p := get_dataset_size expand sizes input_shards
    let ns0 := p.1
    let num_shards := p.2
    if is_train && args.distributed then
      let max_shards_per_node := ceilDiv num_shards args.world_size
      let ns1 := args.world_size * (ns0 * max_shards_per_node / num_shards)
      let num_batches := ns1 / (args.batch_size * args.world_size)
      let num_samples := num_batches * args.batch_size * args.world_size
      .ok ⟨{ dataset_len := num_samples, batch_size := args.batch_size, shuffle := false,
             drop_last := false, num_samples := some num_samples,
             num_batches := some num_batches }, none⟩
    else if is_train then
      .ok ⟨{ dataset_len := ns0, batch_size := args.batch_size, shuffle := false,
             drop_last := false, num_samples := some ns0,
             num_batches := some (ns0 / args.batch_size) }, none⟩
    else
      .ok ⟨{ dataset_len := ns0, batch_size := args.batch_size_eval, shuffle := false,
             drop_last := false, num_samples := some ns0,
             num_batches := some (ns0 / args.batch_size_eval) }, none⟩

/-- `dataset.targets[i]` (1000 is only a formal out-of-range default; every
access is in range). -/
def targetAt (targets : List Nat) (i : Nat) : Nat := targets.getD i 1000

/-- The positions of class `c` in the targets array (`np.where` order):
`target_array == c` as an index list. -/
def classPositions (targets : List Nat) (c : Nat) : List Nat :=
  (List.range targets.length).filter (fun i => targetAt targets i == c)

/-- `arr = np.zeros(n); arr[:k] = 1` as a boolean list. -/
def baseFlags (n k : Nat) : List Bool :=
  (List.range n).map (fun j => decide (j < k))

/-- `np.random.shuffle(arr)`: the shuffled array, where `p` is the permutation
of `0..n-1` the shuffle realises (`result[r] = arr[p[r]]`). -/
def permuteFlags (p : List Nat) (arr : List Bool) : List Bool :=
  p.map (fun j => arr.getD j false)

/-- The per-class selection flags of get_imagenet's train branch (`k = 50`). -/
def classFlags (targets : List Nat) (perms : Nat → List Nat) (c : Nat) : List Bool :=
  permuteFlags (perms c) (baseFlags (classPositions targets c).length 50)

/-- The selected indices of class `c`: the class positions whose flag is set
(`idxs[m] = arr`). -/
def selectedOfClass (targets : List Nat) (perms : Nat → List Nat) (c : Nat) : List Nat :=
  (((classPositions targets c).zip (classFlags targets perms c)).filter
    (fun p => p.2)).map (fun p => p.1)

/-- `np.where(idxs)[0]` of get_imagenet's train branch: all selected indices,
collected class by class for `c in range(1000)` (the same index set). -/
def imagenetTrainIndices (targets : List Nat) (perms : Nat → List Nat) : List Nat :=
  (List.range 1000).flatMap (fun c => selectedOfClass targets perms c)

/-- `get_imagenet(args, preprocess_fns, split)` from data.py. `dsLen` is the
length of the external dataset, `targets` its `.targets` class list, `perms`
the per-class `np.random.shuffle` permutations, `perm` the debug-subsample
shuffle. The dataloader gets `shuffle=True`, `batch_size=args.batch_size_eval`
and no `num_samples` / `num_batches` attributes are assigned. -/
def get_imagenet (args : Args) (split : String) (dsLen : Nat) (targets : List Nat)
    (perms : Nat → List Nat) (perm : List Nat) : Except String DataInfo :=
  if split ≠ "train" ∧ split ≠ "val" ∧ split ≠ "v2" then
    .error "AssertionError: split not allowed"
  else if split ≠ "v2" ∧
      truthy (if split = "train" then args.imagenet_train else args.imagenet_val) = false then
    .error "AssertionError: data_path"
  else
    let n := if args.debug_run then (get_data_subset perm dsLen 1000).length else dsLen
    let sampler : Option Sampler :=
      if split = "train" then some (.subsetRandom (imagenetTrainIndices targets perms))
      else none
    .ok ⟨{ dataset_len := n, batch_size := args.batch_size_eval, shuffle := true,
           drop_last := false, num_samples := none, num_batches := none }, sampler⟩

/-- The dataset-construction helpers get_data can call (tagging which one
produced each entry of the returned dictionary). -/
inductive Ctor : Type
  | cellpainting : Ctor
  | imagenet : Ctor
  | csvC : Ctor
  | wdsC : Ctor
deriving DecidableEq, Repr

/-- The external inputs (dataset lengths, targets, shuffle permutations) the
constructors invoked by get_data depend on. -/
structure World where
  cpTrainLen : Nat
  cpValLen : Nat
  cpTrainPerm : List Nat
  cpValPerm : List Nat
  inValLen : Nat
  inV2Len : Nat
  inValPerm : List Nat
  inV2Perm : List Nat
  targets : List Nat
  classPerms : Nat → List Nat

/-- `get_data(args, preprocess_fns)` from data.py (the active, uncommented
version): a dict with keys "train"/"val" from get_cellpainting_dataset and
"imagenet-val"/"imagenet-v2" from get_imagenet, each present under the
corresponding argument condition. -/
def get_data (args : Args) (w : World) : List (String × Ctor × Except String DataInfo) :=
  (if truthy args.train_index then
    [("train", Ctor.cellpainting, get_cellpainting_dataset args true w.cpTrainLen w.cpTrainPerm)]
  else []) ++
  (if truthy args.val_index then
    [("val", Ctor.cellpainting, get_cellpainting_dataset args false w.cpValLen w.cpValPerm)]
  else []) ++
  (if args.imagenet_val.isSome then
    [("imagenet-val", Ctor.imagenet, get_imagenet args "val" w.inValLen w.targets w.classPerms w.inValPerm)]
  else []) ++
  (if args.imagenet_v2.isSome then
    [("imagenet-v2", Ctor.imagenet, get_imagenet args "v2" w.inV2Len w.targets w.classPerms w.inV2Perm)]
  else [])

/-- A concrete argument record (non-distributed) used by witnesses. -/
def argsA : Args :=
  { train_data := some "data/train.csv", val_data := none,
    train_index := some "idx/train", val_index := none,
    data_mols := some "mols.parquet", image_path := some "imgs",
    imagenet_train := some "in/train", imagenet_val := some "in/val",
    imagenet_v2 := none,
    batch_size := 4, batch_size_eval := 3, workers := 0, seed := 7,
    world_size := 2, distributed := false, debug_run := false,
    csv_img_key := "img", csv_caption_key := "cap",
    path_data := "root", csv_separator := "\t" }

/-- A concrete distributed argument record with tar shards, for witnesses. -/
def argsD : Args :=
  { argsA with distributed := true, train_data := some "shards/part-0.tar" }

/-- A concrete targets array used by witnesses. -/
def targets0 : List Nat := [0, 0, 0, 1, 3]

/-- Concrete per-class shuffle permutations (the identity ones). -/
def perms0 : Nat → List Nat := fun c => List.range (classPositions targets0 c).length

/-- A concrete external-world record used by witnesses. -/
def worldA : World :=
  { cpTrainLen := 5, cpValLen := 2, cpTrainPerm := [4, 2, 0, 1, 3],
    cpValPerm := [1, 0], inValLen := 4, inV2Len := 3,
    inValPerm := [3, 1, 0, 2], inV2Perm := [2, 0, 1],
    targets := targets0, classPerms := perms0 }

/-- The `DataInfo` that `get_csv_dataset argsA true [] []` evaluates to. -/
def csvInfoA : DataInfo :=
  ⟨{ dataset_len := 0, batch_size := 4, shuffle := true, drop_last := true,
     num_samples := some 0, num_batches := some 0 }, none⟩

/-- The `DataInfo` that `get_imagenet argsA "val" 4 ...` evaluates to. -/
def inValInfoA : DataInfo :=
  ⟨{ dataset_len := 4, batch_size := 3, shuffle := true, drop_last := false,
     num_samples := none, num_batches := none }, none⟩

/-- The `DataInfo` that `get_wds_dataset argsD true` evaluates to on two
10-sample shards (distributed, batch size 4, world size 2). -/
def wdsInfoD : DataInfo :=
  ⟨{ dataset_len := 16, batch_size := 4, shuffle := false, drop_last := false,
     num_samples := some 16, num_batches := some 2 }, none⟩

end Cloome

namespace Cloome

/- Helper lemmas shared by the claim theorems. -/

/-- `(range l.length).map (l.getD · d)` reads a list back off itself. -/
theorem map_getD_range {α : Type} (l : List α) (d : α) :
    (List.range l.length).map (fun j => l.getD j d) = l := by
  apply List.ext_getElem
  · simp
  · intro i h1 h2
    simp only [List.getElem_map, List.getElem_range]
    rw [List.getD_eq_getElem l d h2]

/-- Ceiling division steps off one full block of a positive count. -/
theorem ceilDiv_step (n bs : Nat) (hbs : 0 < bs) (hn : 0 < n) :
    ceilDiv n bs = ceilDiv (n - bs) bs + 1 := by
  unfold ceilDiv
  rcases le_or_lt n bs with h | h
  · have h1 : (n + bs - 1) / bs = 1 := Nat.div_eq_of_lt_le (by omega) (by omega)
    have h2 : (n - bs + bs - 1) / bs = 0 := Nat.div_eq_of_lt (by omega)
    omega
  · have h1 : n + bs - 1 = (n - 1) + bs := by omega
    have h2 : n - bs + bs - 1 = (n - 1 - bs) + bs := by omega
    rw [h1, h2, Nat.add_div_right _ hbs, Nat.add_div_right _ hbs]
    have h3 : n - 1 - bs + 1 = n - bs := by omega
    have h4 : (n - 1) / bs = (n - 1 - bs) / bs + 1 := by
      have := Nat.sub_add_cancel (by omega : bs ≤ n - 1)
      calc (n - 1) / bs = (n - 1 - bs + bs) / bs := by rw [this]
        _ = (n - 1 - bs) / bs + 1 := Nat.add_div_right _ hbs

    omega

/-- `chunks` produces `ceil(n / bs)` chunks. -/
theorem chunks_length_le {α : Type} (bs : Nat) (hbs : 0 < bs) :
    ∀ (n : Nat) (l : List α), l.length ≤ n →
      (chunks bs l).length = ceilDiv l.length bs := by
  intro n
  induction n with
  | zero =>
    intro l hl
    have h0 : l = [] := by cases l <;> simp_all
    subst h0
    simp [chunks, ceilDiv, Nat.div_eq_of_lt (by omega : bs - 1 < bs)]
  | succ m ih =>
    intro l hl
    cases l with
    | nil => simp [chunks, ceilDiv, Nat.div_eq_of_lt (by omega : bs - 1 < bs)]
    | cons a t =>
      rw [chunks]
      have hlt : (t.drop (bs - 1)).length ≤ m := by
        simp only [List.length_drop]
        simp only [List.length_cons] at hl
        omega
      have hrec := ih (t.drop (bs - 1)) hlt
      simp only [List.length_cons, hrec, List.length_drop]
      rw [ceilDiv_step (t.length + 1) bs hbs (by omega)]
      have he : t.length + 1 - bs = t.length - (bs - 1) := by omega
      rw [he]

/-- `chunks` produces `ceil(n / bs)` chunks (top-level form). -/
theorem chunks_length {α : Type} (bs : Nat) (hbs : 0 < bs) (l : List α) :
    (chunks bs l).length = ceilDiv l.length bs :=
  chunks_length_le bs hbs l.length l (Nat.le_refl _)

/-- The number of yielded batches equals the `num_batches` attribute value. -/
theorem yieldedBatches_length {α : Type} (bs : Nat) (hbs : 0 < bs) (dl : Bool)
    (items : List α) :
    (yieldedBatches bs dl items).length = numBatchesAttr items.length bs dl := by
  cases dl with
  | false => simp [yieldedBatches, numBatchesAttr, chunks_length bs hbs]
  | true =>
    have hle : bs * (items.length / bs) ≤ items.length := by
      rw [Nat.mul_comm]
      exact Nat.div_mul_le_self _ _
    simp only [yieldedBatches, numBatchesAttr, if_true]
    rw [chunks_length bs hbs, List.length_take, Nat.min_eq_left hle]
    unfold ceilDiv
    have h1 : bs * (items.length / bs) + bs - 1 = bs * (items.length / bs) + (bs - 1) := by
      omega
    rw [h1, Nat.mul_add_div hbs]
    simp [Nat.div_eq_of_lt (by omega : bs - 1 < bs)]

/-- Claim C1: `get_dataset_fn` dispatches exactly as data.py lines 244-259:
`"webdataset"` ↦ the wds constructor, `"csv"` ↦ the csv constructor,
`"auto"` ↦ by the final dot-separated component of `data_path` (csv/tsv ↦
csv, tar ↦ wds, otherwise ValueError), and ValueError for every other
dataset type. -/
theorem claim_C1 (data_path dataset_type : String) :
    get_dataset_fn data_path "csv" = .ok .csvFn ∧
    get_dataset_fn data_path "webdataset" = .ok .wdsFn ∧
    ((lastComponent '.' data_path = "csv" ∨ lastComponent '.' data_path = "tsv") →
      get_dataset_fn data_path "auto" = .ok .csvFn) ∧
    (lastComponent '.' data_path = "tar" →
      get_dataset_fn data_path "auto" = .ok .wdsFn) ∧
    (lastComponent '.' data_path ≠ "csv" → lastComponent '.' data_path ≠ "tsv" →
      lastComponent '.' data_path ≠ "tar" →
      isErr (get_dataset_fn data_path "auto") = true) ∧
    (dataset_type ≠ "webdataset" → dataset_type ≠ "csv" → dataset_type ≠ "auto" →
      isErr (get_dataset_fn data_path dataset_type) = true) := by
  have hauto : get_dataset_fn data_path "auto" =
      (if lastComponent '.' data_path = "csv" ∨ lastComponent '.' data_path = "tsv" then
        .ok .csvFn
      else if lastComponent '.' data_path = "tar" then .ok .wdsFn
      else .error ("Tried to figure out dataset type, but failed for extention " ++
        lastComponent '.' data_path)) := by
    unfold get_dataset_fn
    rw [if_neg (by decide), if_neg (by decide), if_pos rfl]
  refine ⟨?_, ?_, ?_, ?_, ?_, ?_⟩
  · unfold get_dataset_fn
    rw [if_neg (by decide), if_pos rfl]
  · unfold get_dataset_fn
    rw [if_pos rfl]
  · intro h
    rw [hauto, if_pos h]
  · intro h
    rw [hauto, if_neg (by simp [h]), if_pos h]
  · intro h1 h2 h3
    rw [hauto, if_neg (by simp [h1, h2]), if_neg h3]
    rfl
  · intro h1 h2 h3
    unfold get_dataset_fn
    rw [if_neg h1, if_neg h2, if_neg h3]
    rfl

/-- Witness for C1 at concrete inputs: "data/x.tsv" with "auto" selects the
CSV constructor, and dataset type "json" is rejected. -/
theorem claim_C1_witness :
    get_dataset_fn "data/x.tsv" "auto" = .ok .csvFn ∧
    isErr (get_dataset_fn "data/x.tsv" "json") = true :=
  ⟨(claim_C1 "data/x.tsv" "json").2.2.1 (by decide),
   (claim_C1 "data/x.tsv" "json").2.2.2.2.2 (by decide) (by decide) (by decide)⟩

/-- Claim C2: each dataset constructor checks its required path arguments
first: `get_csv_dataset` fails exactly when the selected
train_data/val_data is `None` or empty, `get_wds_dataset` exactly when the
selected shard pattern is `None`, `get_cellpainting_dataset` exactly when
data_mols or image_path is `None` or empty; with non-empty arguments no
assertion fires. -/
theorem claim_C2 (args : Args) (is_train : Bool) (rows : List CsvRow)
    (perm permCp : List Nat) (cpLen : Nat) (expand : String → List String)
    (sizes : String → Nat) :
    (isErr (get_csv_dataset args is_train rows perm) = true ↔
      truthy (if is_train then args.train_data else args.val_data) = false) ∧
    (isErr (get_wds_dataset args is_train expand sizes) = true ↔
      (if is_train then args.train_data else args.val_data) = none) ∧
    (isErr (get_cellpainting_dataset args is_train cpLen permCp) = true ↔
      (truthy args.data_mols = false ∨ truthy args.image_path = false)) := by
  refine ⟨?_, ?_, ?_⟩
  · unfold get_csv_dataset
    by_cases h : truthy (if is_train then args.train_data else args.val_data) = false <;>
      simp [h, isErr]
  · unfold get_wds_dataset
    cases hsel : (if is_train then args.train_data else args.val_data) with
    | none => simp [isErr]
    | some s =>
      simp only
      split
      · simp [isErr]
      · split <;> simp [isErr]
  · unfold get_cellpainting_dataset
    by_cases h1 : truthy args.data_mols = false <;>
      by_cases h2 : truthy args.image_path = false <;>
      simp [h1, h2, isErr]

/-- Witness for C2: with every path argument set, none of the three
constructors raises; with data_mols empty, get_cellpainting_dataset does. -/
theorem claim_C2_witness :
    isErr (get_csv_dataset argsA true [] []) = false ∧
    isErr (get_cellpainting_dataset argsA true 5 []) = false := by
  constructor
  · have h := (claim_C2 argsA true [] [] [] 5 (fun _ => []) (fun _ => 0)).1
    cases hv : isErr (get_csv_dataset argsA true [] [])
    · rfl
    · exact absurd (h.mp hv) (by decide)
  · have h := (claim_C2 argsA true [] [] [] 5 (fun _ => []) (fun _ => 0)).2.2
    cases hv : isErr (get_cellpainting_dataset argsA true 5 [])
    · rfl
    · rcases h.mp hv with h2 | h2 <;> exact absurd h2 (by decide)

/-- Claim C5: `get_data_subset` (with its default `n_samples = 1000`) returns
a subset of exactly `min 1000 n` pairwise-distinct indices, all within
`[0, n)`, and never more than 1000 of them. `shuffled` is the shuffled
`np.arange(n)`, i.e. any permutation of `0..n-1`. -/
theorem claim_C5 (n : Nat) (shuffled : List Nat)
    (h : shuffled.Perm (List.range n)) :
    (get_data_subset shuffled n 1000).length = min 1000 n ∧
    (get_data_subset shuffled n 1000).Nodup ∧
    (∀ i ∈ get_data_subset shuffled n 1000, i < n) ∧
    (get_data_subset shuffled n 1000).length ≤ 1000 := by
  have hlen : shuffled.length = n := by simpa using h.length_eq
  have hnd : shuffled.Nodup := h.symm.nodup (List.nodup_range n)
  refine ⟨?_, ?_, ?_, ?_⟩
  · simp only [get_data_subset, List.length_take, hlen]
    omega
  · exact hnd.sublist (List.take_sublist _ _)
  · intro i hi
    have hm : i ∈ shuffled := (List.take_sublist _ _).mem hi
    have := h.mem_iff.mp hm
    exact List.mem_range.mp this
  · simp only [get_data_subset, List.length_take]
    omega

/-- Witness for C5 at `n = 3` with the concrete shuffle `[2, 0, 1]`. -/
theorem claim_C5_witness :
    (get_data_subset [2, 0, 1] 3 1000).length = min 1000 3 ∧
    (get_data_subset [2, 0, 1] 3 1000).Nodup ∧
    (∀ i ∈ get_data_subset [2, 0, 1] 3 1000, i < 3) ∧
    (get_data_subset [2, 0, 1] 3 1000).length ≤ 1000 :=
  claim_C5 3 [2, 0, 1] (by decide)

/-- Claim C6: `get_dataset_size` returns the pair of (a) the sum, over the
brace-expanded shard paths, of the manifest size recorded under the shard's
basename, and (b) the number of expanded shard paths. -/
theorem claim_C6 (expand : String → List String) (sizes : String → Nat)
    (shards : String) :
    get_dataset_size expand sizes shards =
      (((expand shards).map (fun p => sizes (basename p))).sum,
        (expand shards).length) := rfl

/-- The loader built over `N` dataset items yields exactly the attribute
count of batches. -/
theorem yielded_range (B : Nat) (hB : 0 < B) (dlB : Bool) (N : Nat) :
    (yieldedBatches B dlB (List.range N)).length = numBatchesAttr N B dlB := by
  rw [yieldedBatches_length B hB, List.length_range]

/-- C3 counterexample, refuting the claim at two of its constructors:
(a) `get_imagenet` succeeds on the "val" split but leaves both the
`num_samples` and the `num_batches` attribute unset on its dataloader;
(b) in distributed training mode `get_wds_dataset` (two 10-sample shards,
batch size 4, world size 2) reports `num_samples = 16` although the size of
the dataset per the manifest is 20, so its `num_samples` is not the dataset
size either. -/
theorem claim_C3_counterexample :
    ((get_imagenet argsA "val" 4 [0, 0, 0, 1, 3] worldA.classPerms [3, 1, 0, 2]).map
      (fun di => (di.dataloader.num_samples, di.dataloader.num_batches)) =
      .ok (none, none)) ∧
    (get_dataset_size (fun _ => ["shards/part-0.tar", "shards/part-1.tar"])
      (fun _ => 10) "shards/part-0.tar").1 = 20 ∧
    (get_wds_dataset argsD true (fun _ => ["shards/part-0.tar", "shards/part-1.tar"])
      (fun _ => 10)).map (fun di => di.dataloader.num_samples) = .ok (some 16) :=
  ⟨rfl, rfl, rfl⟩

/-- Claim C3 as amended: `get_cellpainting_dataset` and `get_csv_dataset`
return a `DataInfo` whose dataloader carries `num_samples` equal to the
(possibly debug-subsampled) dataset size and `num_batches` equal to the
number of batches the loader yields over its per-replica items;
`get_wds_dataset` sets both attributes to the counts it computes from the
size manifest — `num_samples` is the manifest total and `num_batches` its
floor quotient by the batch size, except in distributed training mode where
`num_batches = world_size * (total * ceil(shards / world_size) // shards) //
(batch_size * world_size)` and `num_samples = num_batches * batch_size *
world_size` (which can differ from the manifest total); and `get_imagenet`
sets neither attribute. -/
theorem claim_C3_amended (args : Args) (is_train : Bool) (rows : List CsvRow)
    (perm permCp permIn : List Nat) (cpLen dsLen : Nat) (targets : List Nat)
    (perms : Nat → List Nat) (split : String) (expand : String → List String)
    (sizes : String → Nat)
    (hbs : 0 < args.batch_size) (hbe : 0 < args.batch_size_eval)
    (hperm : perm.length = rows.length) (hpermCp : permCp.length = cpLen) :
    (∀ di, get_csv_dataset args is_train rows perm = .ok di →
      di.dataloader.num_samples =
        some (if args.debug_run then min 1000 rows.length else rows.length) ∧
      di.dataloader.num_batches =
        some ((yieldedBatches di.dataloader.batch_size di.dataloader.drop_last
          (List.range (effectiveLen
            (if args.debug_run then min 1000 rows.length else rows.length)
            di.sampler args.world_size))).length)) ∧
    (∀ di, get_cellpainting_dataset args is_train cpLen permCp = .ok di →
      di.dataloader.num_samples =
        some (if args.debug_run then min 1000 cpLen else cpLen) ∧
      di.dataloader.num_batches =
        some ((yieldedBatches di.dataloader.batch_size di.dataloader.drop_last
          (List.range (effectiveLen
            (if args.debug_run then min 1000 cpLen else cpLen)
            di.sampler args.world_size))).length)) ∧
    (∀ s, (if is_train then args.train_data else args.val_data) = some s →
      ∀ di, get_wds_dataset args is_train expand sizes = .ok di →
      di.dataloader.num_samples = some (if is_train && args.distributed then
          (args.world_size * ((get_dataset_size expand sizes s).1 *
            ceilDiv (get_dataset_size expand sizes s).2 args.world_size /
            (get_dataset_size expand sizes s).2) /
            (args.batch_size * args.world_size)) *
            args.batch_size * args.world_size
        else (get_dataset_size expand sizes s).1) ∧
      di.dataloader.num_batches = some (if is_train && args.distributed then
          args.world_size * ((get_dataset_size expand sizes s).1 *
            ceilDiv (get_dataset_size expand sizes s).2 args.world_size /
            (get_dataset_size expand sizes s).2) /
            (args.batch_size * args.world_size)
        else if is_train then (get_dataset_size expand sizes s).1 / args.batch_size
        else (get_dataset_size expand sizes s).1 / args.batch_size_eval)) ∧
    (∀ di, get_imagenet args split dsLen targets perms permIn = .ok di →
      di.dataloader.num_samples = none ∧ di.dataloader.num_batches = none) := by
  have hB : 0 < (if is_train then args.batch_size else args.batch_size_eval) := by
    cases is_train <;> simp [hbs, hbe]
  refine ⟨?_, ?_, ?_, ?_⟩
  · intro di hdi
    unfold get_csv_dataset at hdi
    by_cases hT : truthy (if is_train then args.train_data else args.val_data) = false
    · rw [if_pos hT] at hdi
      exact Except.noConfusion hdi
    · rw [if_neg hT] at hdi
      simp only [Except.ok.injEq] at hdi
      subst hdi
      have hn0 : CsvDataset.length (CsvDataset.ofRows rows args.path_data) = rows.length := by
        simp [CsvDataset.length, CsvDataset.ofRows]
      dsimp only
      rw [hn0]
      have hnn : (if args.debug_run then (get_data_subset perm rows.length 1000).length
          else rows.length) = (if args.debug_run then min 1000 rows.length else rows.length) := by
        by_cases hd : args.debug_run <;> simp [hd, get_data_subset, hperm]
      rw [hnn, yielded_range _ hB]
      exact ⟨rfl, rfl⟩
  · intro di hdi
    unfold get_cellpainting_dataset at hdi
    by_cases h1 : truthy args.data_mols = false
    · rw [if_pos h1] at hdi
      exact Except.noConfusion hdi
    · rw [if_neg h1] at hdi
      by_cases h2 : truthy args.image_path = false
      · rw [if_pos h2] at hdi
        exact Except.noConfusion hdi
      · rw [if_neg h2] at hdi
        simp only [Except.ok.injEq] at hdi
        subst hdi
        dsimp only
        have hnn : (if args.debug_run then (get_data_subset permCp cpLen 1000).length
            else cpLen) = (if args.debug_run then min 1000 cpLen else cpLen) := by
          by_cases hd : args.debug_run <;> simp [hd, get_data_subset, hpermCp]
        rw [hnn, yielded_range _ hB]
        exact ⟨rfl, rfl⟩
  · intro s hs di hdi
    unfold get_wds_dataset at hdi
    rw [hs] at hdi
    dsimp only at hdi
    by_cases hD : (is_train && args.distributed) = true
    · rw [if_pos hD] at hdi
      simp only [Except.ok.injEq] at hdi
      subst hdi
      rw [if_pos hD, if_pos hD]
      exact ⟨rfl, rfl⟩
    · rw [if_neg hD] at hdi
      rw [if_neg hD, if_neg hD]
      by_cases hTr : is_train = true
      · rw [if_pos hTr] at hdi
        simp only [Except.ok.injEq] at hdi
        subst hdi
        rw [if_pos hTr]
        exact ⟨rfl, rfl⟩
      · rw [if_neg hTr] at hdi
        simp only [Except.ok.injEq] at hdi
        subst hdi
        rw [if_neg hTr]
        exact ⟨rfl, rfl⟩
  · intro di hdi
    unfold get_imagenet at hdi
    by_cases hA : split ≠ "train" ∧ split ≠ "val" ∧ split ≠ "v2"
    · rw [if_pos hA] at hdi
      exact Except.noConfusion hdi
    · rw [if_neg hA] at hdi
      by_cases hP : split ≠ "v2" ∧
          truthy (if split = "train" then args.imagenet_train else args.imagenet_val) = false
      · rw [if_pos hP] at hdi
        exact Except.noConfusion hdi
      · rw [if_neg hP] at hdi
        simp only [Except.ok.injEq] at hdi
        subst hdi
        exact ⟨rfl, rfl⟩

/-- Witness for C3 (amended) at concrete inputs: the "val"-split ImageNet
loader ends up with both attributes unset, and the distributed wds loader on
two 10-sample shards reports 16 samples in 2 batches. -/
theorem claim_C3_amended_witness :
    (inValInfoA.dataloader.num_samples = none ∧
      inValInfoA.dataloader.num_batches = none) ∧
    wdsInfoD.dataloader.num_samples = some 16 ∧
    wdsInfoD.dataloader.num_batches = some 2 := by
  have hwds := (claim_C3_amended argsD true [] [] [] [] 0 0 [] (fun _ => []) "val"
    (fun _ => ["shards/part-0.tar", "shards/part-1.tar"]) (fun _ => 10)
    (by decide) (by decide) rfl rfl).2.2.1 "shards/part-0.tar" rfl wdsInfoD rfl
  exact ⟨(claim_C3_amended argsA true [] [] [] [3, 1, 0, 2] 0 4 [0, 0, 0, 1, 3]
      worldA.classPerms "val" (fun _ => []) (fun _ => 0)
      (by decide) (by decide) rfl rfl).2.2.2 inValInfoA rfl,
    hwds.1.trans (by decide), hwds.2.trans (by decide)⟩

/-- C4 counterexample: with `is_train = true` and `args.distributed = false`,
`get_wds_dataset` returns a `DataInfo` whose sampler is `None` while its
loader was built with `shuffle=False`, contradicting the claim that the
dataloader shuffles whenever the sampler is `None` and `is_train` holds. -/
theorem claim_C4_counterexample :
    (get_wds_dataset argsA true (fun _ => ["a.tar"]) (fun _ => 8)).map
      (fun di => (di.sampler, di.dataloader.shuffle)) = .ok (none, false) := rfl

/-- Claim C4 as amended: for `get_csv_dataset` and `get_cellpainting_dataset`
the sampler is a `DistributedSampler` seeded with `args.seed` iff
`args.distributed ∧ is_train` (otherwise `None`), and when it is `None` and
`is_train` holds those two loaders shuffle; `get_wds_dataset`'s sampler is
always `None` and its loader is built with `shuffle=False`. -/
theorem claim_C4_amended (args : Args) (is_train : Bool) (rows : List CsvRow)
    (perm permCp : List Nat) (cpLen : Nat) (expand : String → List String)
    (sizes : String → Nat) :
    (∀ di, get_csv_dataset args is_train rows perm = .ok di →
      di.sampler = (if args.distributed && is_train then
        some (Sampler.distributedS args.seed) else none) ∧
      (di.sampler = none → is_train = true → di.dataloader.shuffle = true)) ∧
    (∀ di, get_cellpainting_dataset args is_train cpLen permCp = .ok di →
      di.sampler = (if args.distributed && is_train then
        some (Sampler.distributedS args.seed) else none) ∧
      (di.sampler = none → is_train = true → di.dataloader.shuffle = true)) ∧
    (∀ di, get_wds_dataset args is_train expand sizes = .ok di →
      di.sampler = none ∧ di.dataloader.shuffle = false) := by
  refine ⟨?_, ?_, ?_⟩
  · intro di hdi
    unfold get_csv_dataset at hdi
    by_cases hT : truthy (if is_train then args.train_data else args.val_data) = false
    · rw [if_pos hT] at hdi
      exact Except.noConfusion hdi
    · rw [if_neg hT] at hdi
      simp only [Except.ok.injEq] at hdi
      subst hdi
      refine ⟨rfl, ?_⟩
      intro hs _
      dsimp only at hs ⊢
      rw [hs]
      rfl
  · intro di hdi
    unfold get_cellpainting_dataset at hdi
    by_cases h1 : truthy args.data_mols = false
    · rw [if_pos h1] at hdi
      exact Except.noConfusion hdi
    · rw [if_neg h1] at hdi
      by_cases h2 : truthy args.image_path = false
      · rw [if_pos h2] at hdi
        exact Except.noConfusion hdi
      · rw [if_neg h2] at hdi
        simp only [Except.ok.injEq] at hdi
        subst hdi
        refine ⟨rfl, ?_⟩
        intro hs htr
        dsimp only at hs ⊢
        rw [hs, htr]
        rfl
  · intro di hdi
    unfold get_wds_dataset at hdi
    cases hsel : (if is_train then args.train_data else args.val_data) with
    | none =>
      rw [hsel] at hdi
      exact Except.noConfusion hdi
    | some s =>
      rw [hsel] at hdi
      dsimp only at hdi
      by_cases hD : (is_train && args.distributed) = true
      · rw [if_pos hD] at hdi
        simp only [Except.ok.injEq] at hdi
        subst hdi
        exact ⟨rfl, rfl⟩
      · rw [if_neg hD] at hdi
        by_cases hTr : is_train = true
        · rw [if_pos hTr] at hdi
          simp only [Except.ok.injEq] at hdi
          subst hdi
          exact ⟨rfl, rfl⟩
        · rw [if_neg hTr] at hdi
          simp only [Except.ok.injEq] at hdi
          subst hdi
          exact ⟨rfl, rfl⟩

/-- Witness for C4 (amended): the concrete non-distributed CSV training
loader has no sampler and shuffles. -/
theorem claim_C4_amended_witness :
    csvInfoA.sampler = (if argsA.distributed && true then
      some (Sampler.distributedS argsA.seed) else none) ∧
    (csvInfoA.sampler = none → true = true → csvInfoA.dataloader.shuffle = true) :=
  (claim_C4_amended argsA true [] [] [] 0 (fun _ => []) (fun _ => 0)).1 csvInfoA rfl

/-- Claim C10: `get_data` builds its dictionary only from the CellPainting
and ImageNet constructors — "train" present iff `args.train_index` is truthy,
"val" iff `args.val_index` is truthy (both via `get_cellpainting_dataset`),
"imagenet-val" iff `args.imagenet_val` is not `None`, "imagenet-v2" iff
`args.imagenet_v2` is not `None` (both via `get_imagenet`) — and never
invokes the CSV, webdataset or extension-dispatch helpers. -/
theorem claim_C10 (args : Args) (w : World) :
    ((∃ e ∈ get_data args w, e.1 = "train") ↔ truthy args.train_index = true) ∧
    ((∃ e ∈ get_data args w, e.1 = "val") ↔ truthy args.val_index = true) ∧
    ((∃ e ∈ get_data args w, e.1 = "imagenet-val") ↔ args.imagenet_val.isSome = true) ∧
    ((∃ e ∈ get_data args w, e.1 = "imagenet-v2") ↔ args.imagenet_v2.isSome = true) ∧
    (∀ e ∈ get_data args w, e.2.1 = Ctor.cellpainting ∨ e.2.1 = Ctor.imagenet) ∧
    (∀ e ∈ get_data args w, e.2.1 ≠ Ctor.csvC ∧ e.2.1 ≠ Ctor.wdsC) ∧
    (∀ e ∈ get_data args w, (e.1 = "train" ∨ e.1 = "val") →
      e.2.1 = Ctor.cellpainting) ∧
    (∀ e ∈ get_data args w, (e.1 = "imagenet-val" ∨ e.1 = "imagenet-v2") →
      e.2.1 = Ctor.imagenet) := by
  unfold get_data
  by_cases h1 : truthy args.train_index = true <;>
  by_cases h2 : truthy args.val_index = true <;>
  by_cases h3 : args.imagenet_val.isSome = true <;>
  by_cases h4 : args.imagenet_v2.isSome = true <;>
  simp [h1, h2, h3, h4]

/-- Witness for C10: with `argsA` (train_index set, val_index `None`,
imagenet_val set, imagenet_v2 `None`) the dictionary holds exactly the
"train" and "imagenet-val" entries. -/
theorem claim_C10_witness :
    (∃ e ∈ get_data argsA worldA, e.1 = "train") ∧
    ¬ (∃ e ∈ get_data argsA worldA, e.1 = "val") :=
  ⟨(claim_C10 argsA worldA).1.mpr (by decide),
   fun h => by
    have := (claim_C10 argsA worldA).2.1.mp h
    exact absurd this (by decide)⟩

/-- Folding `countStep` over batches of matching lengths never fails. -/
theorem countStep_foldl_some {I T : Type} :
    ∀ (batches : List (List I × List T)) (acc : Nat × Nat),
      (∀ b ∈ batches, b.1.length = b.2.length) →
      (batches.foldl countStep (some acc)).isSome = true := by
  intro batches
  induction batches with
  | nil => intro acc _; rfl
  | cons b bs ih =>
    intro acc h
    have hb := h b (by simp)
    have hstep : countStep (some acc) b = some (acc.1 + b.1.length, acc.2 + 1) := by
      simp [countStep, hb]
    rw [List.foldl_cons, hstep]
    exact ih _ (fun x hx => h x (List.mem_cons_of_mem _ hx))

/-- Claim C7: a `CsvDataset` built from a delimited file has images and
captions lists of equal length (one entry per row), its `__len__` is that
common length, `__getitem__` yields exactly one (image, text) pair for every
in-range index, and every batch the loader collates from it has
`len(images) = len(texts)`, so `count_samples` runs without assertion
failure. -/
theorem claim_C7 {I T : Type} (rows : List CsvRow) (folder : String)
    (tf : String → I) (tk : String → T) (bs : Nat) :
    (CsvDataset.ofRows rows folder).images.length =
      (CsvDataset.ofRows rows folder).captions.length ∧
    CsvDataset.length (CsvDataset.ofRows rows folder) =
      (CsvDataset.ofRows rows folder).captions.length ∧
    CsvDataset.length (CsvDataset.ofRows rows folder) = rows.length ∧
    (∀ idx, idx < CsvDataset.length (CsvDataset.ofRows rows folder) →
      ∃ pr, CsvDataset.getitem (CsvDataset.ofRows rows folder) tf tk idx = some pr) ∧
    (∀ b ∈ (chunks bs (CsvDataset.items (CsvDataset.ofRows rows folder) tf tk)).map
        collate, b.1.length = b.2.length) ∧
    (count_samples ((chunks bs (CsvDataset.items (CsvDataset.ofRows rows folder)
        tf tk)).map collate)).isSome = true := by
  have hbatch : ∀ b ∈ (chunks bs (CsvDataset.items (CsvDataset.ofRows rows folder)
      tf tk)).map collate, b.1.length = b.2.length := by
    intro b hb
    rcases List.mem_map.mp hb with ⟨c, _, rfl⟩
    simp [collate]
  refine ⟨?_, rfl, ?_, ?_, hbatch, ?_⟩
  · simp [CsvDataset.ofRows]
  · simp [CsvDataset.length, CsvDataset.ofRows]
  · intro idx hidx
    have hlen : idx < (CsvDataset.ofRows rows folder).captions.length := hidx
    have hlen2 : idx < (CsvDataset.ofRows rows folder).images.length := by
      simpa [CsvDataset.ofRows] using hlen
    unfold CsvDataset.getitem
    cases himg : (CsvDataset.ofRows rows folder).images.get? idx with
    | none =>
      have := List.get?_eq_none.mp himg
      omega
    | some img =>
      cases hcap : (CsvDataset.ofRows rows folder).captions.get? idx with
      | none =>
        have := List.get?_eq_none.mp hcap
        omega
      | some cap => exact ⟨(tf img, tk cap), rfl⟩
  · exact countStep_foldl_some _ (0, 0) hbatch

/-- Witness for C7 on a two-row CSV: index 0 yields a pair and
`count_samples` succeeds on the collated batches. -/
theorem claim_C7_witness :
    (∃ pr, CsvDataset.getitem
      (CsvDataset.ofRows [⟨"a.png", "c1"⟩, ⟨"b.png", "c2"⟩] "root")
      (fun s => s) (fun s => s) 0 = some pr) ∧
    (count_samples ((chunks 1 (CsvDataset.items
      (CsvDataset.ofRows [⟨"a.png", "c1"⟩, ⟨"b.png", "c2"⟩] "root")
      (fun s => s) (fun s => s))).map collate)).isSome = true :=
  ⟨(claim_C7 [⟨"a.png", "c1"⟩, ⟨"b.png", "c2"⟩] "root" (fun s => s) (fun s => s)
      1).2.2.2.1 0 (by decide),
   (claim_C7 [⟨"a.png", "c1"⟩, ⟨"b.png", "c2"⟩] "root" (fun s => s) (fun s => s)
      1).2.2.2.2.2⟩

/-- Claim C8: in distributed training mode `get_wds_dataset` reports
`num_batches = (world_size * (raw * ceil(shards / world_size) // shards)) //
(batch_size * world_size)` and `num_samples = num_batches * batch_size *
world_size` (hence divisible by `batch_size * world_size`), pairs the loader
with no sampler, and slicing the (repeated) batch stream keeps exactly
`num_batches` batches. -/
theorem claim_C8 (args : Args) (expand : String → List String)
    (sizes : String → Nat) (shards : String) (stream : List (List Nat)) (NB : Nat)
    (h1 : args.train_data = some shards) (hd : args.distributed = true)
    (hNB : NB = args.world_size * ((get_dataset_size expand sizes shards).1 *
      ceilDiv (get_dataset_size expand sizes shards).2 args.world_size /
      (get_dataset_size expand sizes shards).2) /
      (args.batch_size * args.world_size)) :
    ((get_wds_dataset args true expand sizes).map
      (fun di => (di.dataloader.num_batches, di.dataloader.num_samples, di.sampler)) =
      .ok (some NB, some (NB * args.batch_size * args.world_size), none)) ∧
    (args.batch_size * args.world_size) ∣ NB * args.batch_size * args.world_size ∧
    (NB ≤ stream.length → (sliceBatches stream NB).length = NB) := by
  refine ⟨?_, ⟨NB, by ring⟩, ?_⟩
  rotate_left
  · intro h
    simp only [sliceBatches, List.length_take]
    omega
  · subst hNB
    have hsel : (if true = true then args.train_data else args.val_data) = some shards := by
      rw [if_pos rfl, h1]
    unfold get_wds_dataset
    rw [hsel]
    dsimp only
    have hc : (true && args.distributed) = true := by rw [hd]; rfl
    rw [if_pos hc]
    rfl

/-- Witness for C8 with two 10-sample shards, batch size 4, world size 2:
2 batches and 16 reported samples. -/
theorem claim_C8_witness :
    ((get_wds_dataset argsD true
        (fun _ => ["shards/part-0.tar", "shards/part-1.tar"]) (fun _ => 10)).map
      (fun di => (di.dataloader.num_batches, di.dataloader.num_samples, di.sampler)) =
      .ok (some 2, some (2 * argsD.batch_size * argsD.world_size), none)) ∧
    (sliceBatches [[0], [1], [2]] 2).length = 2 :=
  have h := claim_C8 argsD (fun _ => ["shards/part-0.tar", "shards/part-1.tar"])
    (fun _ => 10) "shards/part-0.tar" [[0], [1], [2]] 2 rfl rfl (by decide)
  ⟨h.1, h.2.2 (by decide)⟩

/-- Membership in `classPositions`: in-range indices whose target is `c`. -/
theorem mem_classPositions {targets : List Nat} {c i : Nat} :
    i ∈ classPositions targets c ↔ i < targets.length ∧ targetAt targets i = c := by
  unfold classPositions
  simp [List.mem_filter, List.mem_range]

/-- The shuffled flag array has as many entries as the class has positions. -/
theorem classFlags_length {targets : List Nat} {perms : Nat → List Nat} {c : Nat}
    (hp : (perms c).Perm (List.range (classPositions targets c).length)) :
    (classFlags targets perms c).length = (classPositions targets c).length := by
  unfold classFlags permuteFlags
  rw [List.length_map]
  simpa using hp.length_eq

/-- Shuffling the flag array permutes it. -/
theorem classFlags_perm {targets : List Nat} {perms : Nat → List Nat} {c : Nat}
    (hp : (perms c).Perm (List.range (classPositions targets c).length)) :
    (classFlags targets perms c).Perm
      (baseFlags (classPositions targets c).length 50) := by
  unfold classFlags permuteFlags
  have hlen : (baseFlags (classPositions targets c).length 50).length =
      (classPositions targets c).length := by
    simp [baseFlags]
  have hbase := map_getD_range (baseFlags (classPositions targets c).length 50) false
  rw [hlen] at hbase
  have hmap := hp.map
    (fun j => (baseFlags (classPositions targets c).length 50).getD j false)
  rw [hbase] at hmap
  exact hmap

/-- `arr[:k] = 1` sets exactly `min k n` flags. -/
theorem baseFlags_countP (n k : Nat) :
    (baseFlags n k).countP (fun b => b) = min k n := by
  unfold baseFlags
  induction n with
  | zero => simp
  | succ m ih =>
    rw [List.range_succ, List.map_append, List.countP_append, ih]
    by_cases h : m < k <;> simp [h] <;> omega

/-- Every selected index of class `c` is one of the class positions. -/
theorem selectedOfClass_sub {targets : List Nat} {perms : Nat → List Nat}
    {c i : Nat} (h : i ∈ selectedOfClass targets perms c) :
    i ∈ classPositions targets c := by
  unfold selectedOfClass at h
  rcases List.mem_map.mp h with ⟨⟨a, fl⟩, hpr, heq⟩
  cases heq
  exact (List.of_mem_zip (List.mem_filter.mp hpr).1).1

/-- Exactly `min 50 n_c` indices of class `c` are selected. -/
theorem selectedOfClass_length {targets : List Nat} {perms : Nat → List Nat}
    {c : Nat} (hp : (perms c).Perm (List.range (classPositions targets c).length)) :
    (selectedOfClass targets perms c).length =
      min 50 (classPositions targets c).length := by
  unfold selectedOfClass
  rw [List.length_map, ← List.countP_eq_length_filter]
  have hlenF : (classFlags targets perms c).length = (classPositions targets c).length :=
    classFlags_length hp
  have hsnd : ((classPositions targets c).zip (classFlags targets perms c)).map Prod.snd
      = classFlags targets perms c :=
    List.map_snd_zip _ _ (by rw [hlenF])
  have h1 : (classFlags targets perms c).countP (fun b => b) =
      ((classPositions targets c).zip (classFlags targets perms c)).countP
        (fun p => p.2) := by
    conv_lhs => rw [← hsnd]
    rw [List.countP_map]
    rfl
  rw [← h1, List.Perm.countP_eq (fun b => b) (classFlags_perm hp), baseFlags_countP]

/-- A flatMap over a duplicate-free list whose other entries contribute
nothing collapses to the single contributing entry. -/
theorem flatMap_nil_of {α β : Type} (l : List α) (g : α → List β)
    (h : ∀ x ∈ l, g x = []) : l.flatMap g = [] := by
  induction l with
  | nil => rfl
  | cons a t ih =>
    rw [List.flatMap_cons, h a (by simp), List.nil_append]
    exact ih (fun x hx => h x (List.mem_cons_of_mem _ hx))

/-- See `flatMap_nil_of`: with exactly one contributing entry the flatMap is
that entry's list. -/
theorem flatMap_single {β : Type} (l : List Nat) (g : Nat → List β) (c : Nat)
    (hc : c ∈ l) (hnd : l.Nodup) (h : ∀ x ∈ l, x ≠ c → g x = []) :
    l.flatMap g = g c := by
  induction l with
  | nil => cases hc
  | cons a t ih =>
    rcases List.mem_cons.mp hc with heq | hct
    · subst heq
      have ht : ∀ x ∈ t, g x = [] := by
        intro x hx
        refine h x (List.mem_cons_of_mem _ hx) ?_
        intro hxc
        subst hxc
        exact (List.nodup_cons.mp hnd).1 hx
      rw [List.flatMap_cons, flatMap_nil_of t g ht, List.append_nil]
    · have ha : g a = [] := by
        refine h a (by simp) ?_
        rintro rfl
        exact (List.nodup_cons.mp hnd).1 hct
      rw [List.flatMap_cons, ha, List.nil_append]
      exact ih hct (List.nodup_cons.mp hnd).2
        (fun x hx => h x (List.mem_cons_of_mem _ hx))

/-- Claim C9: for the ImageNet "train" split, the sampler index set holds,
for every class `c < 1000`, exactly `min 50 n_c` indices of that class
(`n_c` = number of examples of class `c`), and no index of any other target
value; `get_imagenet` places exactly this index set in its
`SubsetRandomSampler`. Each `perms c` is the permutation realised by
`np.random.shuffle` on the class-`c` flag array. -/
theorem claim_C9 (targets : List Nat) (perms : Nat → List Nat)
    (hperm : ∀ c, c < 1000 →
      (perms c).Perm (List.range (classPositions targets c).length)) :
    (∀ c, c < 1000 →
      ((imagenetTrainIndices targets perms).filter
        (fun i => targetAt targets i == c)).length =
        min 50 (classPositions targets c).length) ∧
    (∀ i ∈ imagenetTrainIndices targets perms,
      targetAt targets i < 1000 ∧ i < targets.length) ∧
    (∀ (args : Args) (dsLen : Nat) (perm : List Nat) (di : DataInfo),
      args.debug_run = false →
      get_imagenet args "train" dsLen targets perms perm = .ok di →
      di.sampler = some (Sampler.subsetRandom (imagenetTrainIndices targets perms))) := by
  refine ⟨?_, ?_, ?_⟩
  · intro c hc
    unfold imagenetTrainIndices
    rw [List.filter_flatMap]
    have hsingle : (List.range 1000).flatMap
        (fun x => (selectedOfClass targets perms x).filter
          (fun i => targetAt targets i == c)) =
        (selectedOfClass targets perms c).filter
          (fun i => targetAt targets i == c) := by
      refine flatMap_single _ _ c (List.mem_range.mpr hc) (List.nodup_range 1000) ?_
      intro x _ hxc
      rw [List.filter_eq_nil_iff]
      intro i hi
      have := (mem_classPositions.mp (selectedOfClass_sub hi)).2
      simp [this, hxc]
    rw [hsingle]
    have hself : (selectedOfClass targets perms c).filter
        (fun i => targetAt targets i == c) = selectedOfClass targets perms c := by
      rw [List.filter_eq_self]
      intro i hi
      have := (mem_classPositions.mp (selectedOfClass_sub hi)).2
      simp [this]
    rw [hself]
    exact selectedOfClass_length (hperm c hc)
  · intro i hi
    unfold imagenetTrainIndices at hi
    rcases List.mem_flatMap.mp hi with ⟨c, hcmem, hsel⟩
    have hm := mem_classPositions.mp (selectedOfClass_sub hsel)
    refine ⟨?_, hm.1⟩
    rw [hm.2]
    exact List.mem_range.mp hcmem
  · intro args dsLen perm di hdbg hdi
    unfold get_imagenet at hdi
    rw [if_neg (by simp)] at hdi
    by_cases hP : ("train" : String) ≠ "v2" ∧
        truthy (if ("train" : String) = "train" then args.imagenet_train
          else args.imagenet_val) = false
    · rw [if_pos hP] at hdi
      exact Except.noConfusion hdi
    · rw [if_neg hP] at hdi
      simp only [Except.ok.injEq] at hdi
      subst hdi
      simp

/-- Witness for C9 on the concrete targets `[0, 0, 0, 1, 3]` with identity
shuffles: class 0 contributes exactly `min 50 3 = 3` selected indices. -/
theorem claim_C9_witness :
    ((imagenetTrainIndices targets0 perms0).filter
      (fun i => targetAt targets0 i == 0)).length =
      min 50 (classPositions targets0 0).length :=
  (claim_C9 targets0 perms0 (fun c _ => List.Perm.refl _)).1 0 (by decide)

end Cloome
